import Mathlib

/-!
Verification development for the brainstorm assistant pipeline
(file `brainstorm.py`): file extraction, aggregation, and the two
LLM completion stages.  Python strings are modelled as Lean `String`
(processing is done on `List Char` where character-level scanning is
needed), Python exceptions as `Except String` values supplied by the
environment, and the external completion provider as an oracle mapping
the attempt index to its outcome.
-/

/-! ## Python string primitives -/

/-- Characters removed by Python `str.strip()` (ASCII whitespace). -/
def isSpaceChar (c : Char) : Bool :=
  c = ' ' || c = '\t' || c = '\n' || c = '\r' || c = '\x0b' || c = '\x0c'

/-- Python `str.strip()` on a character list. -/
def pyStripL (s : List Char) : List Char :=
  ((s.dropWhile isSpaceChar).reverse.dropWhile isSpaceChar).reverse

/-- Python `str.strip()` on a string. -/
def pyStripS (s : String) : String :=
  String.mk (pyStripL s.toList)

/-- `len(s.strip())` in Python. -/
def strippedLen (s : String) : Nat :=
  (pyStripL s.toList).length

/-- Python `pat in s` (substring containment) on character lists. -/
def hasSubstrL (pat : List Char) : List Char → Bool
  | [] => List.isPrefixOf pat []
  | c :: rest => List.isPrefixOf pat (c :: rest) || hasSubstrL pat rest

/-- Python `tok in s` on strings. -/
def containsTok (s tok : String) : Bool :=
  hasSubstrL tok.toList s.toList

/-- Scanner for Python `s.replace(pat, "")`: `skip` counts characters of a
matched occurrence still to be consumed; occurrences are found left to
right in the original string and are not rescanned after removal. -/
def removeTokAux (pat : List Char) : Nat → List Char → List Char
  | _, [] => []
  | skip + 1, _ :: rest => removeTokAux pat skip rest
  | 0, c :: rest =>
    if 0 < pat.length ∧ List.isPrefixOf pat (c :: rest) then
      removeTokAux pat (pat.length - 1) rest
    else
      c :: removeTokAux pat 0 rest

/-- Python `s.replace(pat, "")` on character lists (for non-empty `pat`). -/
def pyRemove (s pat : List Char) : List Char :=
  removeTokAux pat 0 s

/-- The first DOCX artifact marker removed by the code (`{` written as an
escape to keep literal braces out of interpolation). -/
def markTok : List Char := "\x7b.mark\x7d".toList

/-- The second DOCX artifact marker removed by the code. -/
def underlineTok : List Char := "\x7b.underline\x7d".toList

/-- `content.replace(markTok, "").replace(underlineTok, "")` — the
sanitizer applied at `brainstorm.py` lines 168-169 and 327-328. -/
def sanitizeL (s : List Char) : List Char :=
  pyRemove (pyRemove s markTok) underlineTok

/-- The sanitizer on strings. -/
def sanitizeStr (s : String) : String :=
  String.mk (sanitizeL s.toList)

/-! ## Completion stages (simplify_content / generate_analysis)

The prompt assembly and the LangChain call are abstracted into an
oracle `Nat → Except String String`: `oracle k` is the outcome of the
`k`-th `chain.run` invocation the stage would issue (an `Except.error`
models a raised provider exception).  Each embedded stage returns the
produced string together with the number of provider calls issued. -/

/-- Sentinel returned by stage 1 when the provider result is empty or
shorter than 10 characters after stripping (line 342). -/
def simplifySentinel : String :=
  "AI分析未能生成有效结果。请检查文档内容是否相关，或调整提示词设置。"

/-- Prefix of the stage-1 exception message (line 349). -/
def simplifyErrPrefix : String := "分析过程中发生错误: "

/-- Message returned by stage 2 when the simplified content is empty or
shorter than 100 characters after stripping (line 360). -/
def insufficientMsg : String :=
  "无法生成报告，因为文档分析阶段未能产生足够深入的内容。请返回上一步重试，调整研究方向或上传更相关的文档。"

/-- Message returned by stage 2 when the provider result is empty or
shorter than 200 characters after stripping (line 410). -/
def reportShortMsg : String :=
  "生成报告失败。AI未能生成有意义的内容，可能是因为分析内容不够详细或研究方向过于模糊。请调整提示词设置或返回上一步提供更充分的信息。"

/-- Prefix of the stage-2 exception message (line 417). -/
def reportErrPrefix : String := "生成报告时出错: "

/-- `simplify_content` (lines 280-349): one `chain.run` call; a raised
exception is caught and converted to an error message; an empty or
too-short result is replaced by the fixed sentinel. -/
def simplify_content (oracle : Nat → Except String String) : String × Nat :=
  match oracle 0 with
  | Except.error e => (simplifyErrPrefix ++ e, 1)
  | Except.ok result =>
    if result = "" ∨ strippedLen result < 10 then (simplifySentinel, 1)
    else (result, 1)

/-- `generate_analysis` (lines 352-417): guard on the simplified input
before any provider call, then one `chain.run` call with the same
catch-and-degrade policy. -/
def generate_analysis (oracle : Nat → Except String String)
    (simplified : String) : String × Nat :=
  if simplified = "" ∨ strippedLen simplified < 100 then (insufficientMsg, 0)
  else
    match oracle 0 with
    | Except.error e => (reportErrPrefix ++ e, 1)
    | Except.ok result =>
      if result = "" ∨ strippedLen result < 200 then (reportShortMsg, 1)
      else (result, 1)

/-! ## Theorems for the completion-stage claims -/

/-- C5: whenever stage 2 is invoked with an empty simplified input or one
whose stripped length is below 100 characters, it returns the fixed
insufficient-content message and issues no provider call at all. -/
theorem c5_stage2_guard (oracle : Nat → Except String String) (s : String)
    (h : s = "" ∨ strippedLen s < 100) :
    generate_analysis oracle s = (insufficientMsg, 0) := by
  simp [generate_analysis, h]

/-- C5 witness: the guard fires on the concrete input "abc". -/
theorem c5_stage2_guard_witness :
    generate_analysis (fun _ => Except.ok "result") "abc" = (insufficientMsg, 0) :=
  c5_stage2_guard (fun _ => Except.ok "result") "abc" (Or.inr (by decide))

/-- C6: when the stage-1 provider call returns a result, an empty or
sub-10-character (after stripping) result is replaced by the fixed
sentinel, otherwise the result is returned unchanged; in both cases
exactly one provider call is made and no exception escapes. -/
theorem c6_stage1_gate (oracle : Nat → Except String String) (r : String)
    (h : oracle 0 = Except.ok r) :
    ((r = "" ∨ strippedLen r < 10) → simplify_content oracle = (simplifySentinel, 1))
    ∧ (¬ (r = "" ∨ strippedLen r < 10) → simplify_content oracle = (r, 1)) := by
  constructor
  · intro hshort
    simp [simplify_content, h, hshort]
  · intro hlong
    simp [simplify_content, h, hlong]

/-- C6 witness: a 5-character result is replaced by the sentinel, and a
20-character result passes through unchanged. -/
theorem c6_stage1_gate_witness :
    simplify_content (fun _ => Except.ok "short") = (simplifySentinel, 1)
    ∧ simplify_content (fun _ => Except.ok "abcdefghijklmnopqrst")
      = ("abcdefghijklmnopqrst", 1) :=
  ⟨(c6_stage1_gate (fun _ => Except.ok "short") "short" rfl).1 (Or.inr (by decide)),
   (c6_stage1_gate (fun _ => Except.ok "abcdefghijklmnopqrst")
      "abcdefghijklmnopqrst" rfl).2 (by decide)⟩

/-! ## Aggregation (tab1 loop, lines 515-551) -/

/-- One extracted document: the saved file name and the string returned
by `process_file` for it. -/
structure ExtractedDoc where
  name : String
  content : String

/-- The literal delimiter header placed before each file (line 536). -/
def fileDelim (name : String) : String :=
  "\n\n===== 文件: " ++ name ++ " =====\n\n"

/-- The aggregation loop: `all_content = ""` then, per file in upload
order, `all_content += delimiter + content`. -/
def aggregate (docs : List ExtractedDoc) : String :=
  docs.foldl (fun acc d => acc ++ fileDelim d.name ++ d.content) ""

/-- The per-file blocks of the aggregate, in upload order. -/
def aggregateParts (docs : List ExtractedDoc) : List String :=
  docs.map fun d => fileDelim d.name ++ d.content

/-- The batch validation test (line 545):
`not all_content or len(all_content.strip()) < 50`. -/
def validationFails (s : String) : Bool :=
  (s == "") || decide (strippedLen s < 50)

theorem string_join_cons (s : String) (l : List String) :
    String.join (s :: l) = s ++ String.join l := by
  apply String.ext
  simp [String.join_eq]

theorem foldl_append_eq_join_strings (init : String) (l : List String) :
    l.foldl (fun acc s => acc ++ s) init = init ++ String.join l := by
  induction l generalizing init with
  | nil => simp [String.join]
  | cons s rest ih =>
    calc (s :: rest).foldl (fun acc s => acc ++ s) init
        = rest.foldl (fun acc s => acc ++ s) (init ++ s) := rfl
      _ = (init ++ s) ++ String.join rest := ih (init ++ s)
      _ = init ++ (s ++ String.join rest) := by rw [String.append_assoc]
      _ = init ++ String.join (s :: rest) := by rw [string_join_cons]

theorem foldl_append_eq_join (g : ExtractedDoc -> String) (docs : List ExtractedDoc)
    (init : String) :
    docs.foldl (fun acc d => acc ++ g d) init = init ++ String.join (docs.map g) := by
  induction docs generalizing init with
  | nil => simp [String.join]
  | cons d rest ih =>
    calc (d :: rest).foldl (fun acc d => acc ++ g d) init
        = rest.foldl (fun acc d => acc ++ g d) (init ++ g d) := rfl
      _ = (init ++ g d) ++ String.join (rest.map g) := ih (init ++ g d)
      _ = init ++ (g d ++ String.join (rest.map g)) := by rw [String.append_assoc]
      _ = init ++ String.join ((d :: rest).map g) := by
          rw [List.map_cons, string_join_cons]

/-- C1: the aggregation output is exactly the concatenation, in upload
order, of one delimiter-plus-content block per input file (the block list
has one entry per file and the i-th block is the delimiter for the i-th
file immediately followed by its text), and the batch validation fails
if and only if the stripped total length is below 50 characters. -/
theorem c1_aggregate_delimiters (docs : List ExtractedDoc) (i : Nat) :
    aggregate docs = String.join (aggregateParts docs)
    ∧ (aggregateParts docs).length = docs.length
    ∧ (aggregateParts docs).get? i
        = (docs.get? i).map (fun d => fileDelim d.name ++ d.content)
    ∧ (validationFails (aggregate docs) = true
        ↔ strippedLen (aggregate docs) < 50) := by
  refine ⟨?_, ?_, ?_, ?_⟩
  · have hfun : (fun (acc : String) (d : ExtractedDoc) =>
          acc ++ fileDelim d.name ++ d.content)
        = fun (acc : String) (d : ExtractedDoc) =>
          acc ++ (fileDelim d.name ++ d.content) := by
      funext acc d
      rw [String.append_assoc]
    rw [aggregate, hfun,
      foldl_append_eq_join (fun d => fileDelim d.name ++ d.content) docs ""]
    rw [String.empty_append]
    rfl
  · simp [aggregateParts]
  · simp [aggregateParts]
  · constructor
    · intro h
      rcases (by simpa [validationFails] using h :
          aggregate docs = "" ∨ strippedLen (aggregate docs) < 50) with he | hl
      · rw [he]
        decide
      · exact hl
    · intro h
      simp [validationFails, h]

/-! ## C3: the alleged degraded-retry on provider failure -/

/-- Formalisation of the C3 retry claim: whenever the first provider
request of stage 1 fails, the stage reissues the request (two calls in
total), and only if the second attempt also fails does it return the
fixed sentinel string. -/
def retryClaimC3 : Prop :=
  ∀ oracle : Nat → Except String String,
    (∃ e, oracle 0 = Except.error e) →
    (simplify_content oracle).2 = 2
    ∧ ((∃ e, oracle 1 = Except.error e) →
        (simplify_content oracle).1 = simplifySentinel)

/-- C3 counterexample: with a provider that fails every attempt, stage 1
issues exactly one call and returns the exception-message string, not the
sentinel after a retry — refuting the retry claim. -/
theorem c3_counterexample : ¬ retryClaimC3 := by
  intro h
  have h2 := (h (fun _ => Except.error "connection reset")
    ⟨"connection reset", rfl⟩).1
  simp [simplify_content] at h2

/-- C3 amended: when the provider request fails, the stage catches the
exception and immediately returns its error-message prefix concatenated
with the exception text, after exactly one provider call and with no
reissue; no exception propagates to the caller (the embedded stages are
total functions).  The same holds for stage 2 once its input guard
passes. -/
theorem c3_single_attempt (oracle : Nat → Except String String) (e : String)
    (h : oracle 0 = Except.error e) :
    simplify_content oracle = (simplifyErrPrefix ++ e, 1)
    ∧ (∀ s : String, ¬ (s = "" ∨ strippedLen s < 100) →
        generate_analysis oracle s = (reportErrPrefix ++ e, 1)) := by
  constructor
  · simp [simplify_content, h]
  · intro s hs
    simp [generate_analysis, hs, h]

/-- A 100-character simplified input used to drive stage 2 past its guard. -/
def hundredChars : String := String.mk (List.replicate 100 'a')

/-- C3 amended witness: concrete failing provider, both stages return the
error-message string after one call. -/
theorem c3_single_attempt_witness :
    simplify_content (fun _ => Except.error "boom")
      = (simplifyErrPrefix ++ "boom", 1)
    ∧ generate_analysis (fun _ => Except.error "boom") hundredChars
      = (reportErrPrefix ++ "boom", 1) :=
  ⟨(c3_single_attempt (fun _ => Except.error "boom") "boom" rfl).1,
   (c3_single_attempt (fun _ => Except.error "boom") "boom" rfl).2
     hundredChars (by decide)⟩

/-! ## C7: the end-to-end 60-character / 20-character-stub scenario -/

/-- A 60-character lorem-ipsum-style plain-text file content. -/
def lorem60 : String := "lorem ipsum dolor sit amet consectetur adipiscing elit sed d"

/-- The extracted document for the uploaded plain-text file. -/
def loremDoc : ExtractedDoc := { name := "lorem.txt", content := lorem60 }

/-- The 20-character stub provider result of the scenario. -/
def stub20 : String := "abcdefghijklmnopqrst"

/-- Formalisation of the C7 scenario claim: aggregation of the 60-character
file passes validation, and stage 1 with the 20-character stub result
reports the sentinel instead of returning the stub. -/
def c7Claim : Prop :=
  validationFails (aggregate [loremDoc]) = false
  ∧ (simplify_content (fun _ => Except.ok stub20)).1 = simplifySentinel

/-- C7 counterexample: the scenario claim is false — the 20-character stub
has stripped length 20, which is not below the stage-1 minimum of 10, so
the gate accepts it and the sentinel is not reported. -/
theorem c7_counterexample : ¬ c7Claim := by
  intro h
  exact absurd h.2 (by decide)

/-- C7 amended: aggregation of the 60-character file succeeds (stripped
length at least 50), stage 1 with a 20-character stub accepts the result
and returns it unchanged (20 is at or above the minimum of 10), and the
sentinel is reported only for stub results whose stripped length is below
10 (for example a 3-character stub). -/
theorem c7_scenario : lorem60.length = 60
    ∧ validationFails (aggregate [loremDoc]) = false
    ∧ 50 ≤ strippedLen (aggregate [loremDoc])
    ∧ stub20.length = 20
    ∧ 10 ≤ strippedLen stub20
    ∧ (simplify_content (fun _ => Except.ok stub20)).1 = stub20
    ∧ (simplify_content (fun _ => Except.ok "abc")).1 = simplifySentinel := by
  decide

/-! ## C9: idempotence of the artifact-token sanitizer -/

/-- An input on which removing the first token splices the surrounding
text into a new occurrence of that token. -/
def spliceInput : List Char := "\x7b.ma\x7b.mark\x7drk\x7d".toList

/-- C9 counterexample: the sanitizer is not idempotent — on `spliceInput`
one application yields the text of the mark token itself, and a second
application removes it. -/
theorem c9_counterexample :
    ¬ sanitizeL (sanitizeL spliceInput) = sanitizeL spliceInput := by
  decide

theorem removeTok_id_of_head_not_mem (pat : List Char) (c0 : Char)
    (hpat : pat.head? = some c0) :
    ∀ s : List Char, c0 ∉ s → removeTokAux pat 0 s = s := by
  intro s
  induction s with
  | nil => intro _; rfl
  | cons c rest ih =>
    intro h
    have hc : c ≠ c0 := fun hcc => h (hcc ▸ List.mem_cons_self c rest)
    have hrest : c0 ∉ rest := fun hr => h (List.mem_cons_of_mem _ hr)
    have hpre : List.isPrefixOf pat (c :: rest) = false := by
      cases pat with
      | nil => simp at hpat
      | cons p pt =>
        have hp : p = c0 := by simpa using hpat
        subst hp
        simp only [List.isPrefixOf, Bool.and_eq_false_iff, beq_eq_false_iff_ne]
        exact Or.inl fun h1 => hc h1.symm
    have hcond : ¬ (0 < pat.length ∧ List.isPrefixOf pat (c :: rest) = true) :=
      fun hco => by simp [hpre] at hco
    calc removeTokAux pat 0 (c :: rest)
        = if 0 < pat.length ∧ List.isPrefixOf pat (c :: rest) then
            removeTokAux pat (pat.length - 1) rest
          else c :: removeTokAux pat 0 rest := rfl
      _ = c :: removeTokAux pat 0 rest := if_neg hcond
      _ = c :: rest := by rw [ih hrest]

/-- C9 amended: the sanitizer is the identity — hence idempotent — on
every input that contains no left-brace character (both artifact tokens
start with one); idempotence fails in general, as `c9_counterexample`
shows, because token removal can splice surrounding text into a new
token occurrence. -/
theorem c9_sanitize_idem_no_brace (x : List Char) (h : '\x7b' ∉ x) :
    sanitizeL x = x ∧ sanitizeL (sanitizeL x) = sanitizeL x := by
  have hid : sanitizeL x = x := by
    unfold sanitizeL pyRemove
    rw [removeTok_id_of_head_not_mem markTok '\x7b' rfl x h,
      removeTok_id_of_head_not_mem underlineTok '\x7b' rfl x h]
  exact ⟨hid, by rw [hid]; exact hid⟩

/-- C9 amended witness: a concrete brace-free string is fixed by the
sanitizer. -/
theorem c9_sanitize_idem_no_brace_witness :
    sanitizeL "hello world".toList = "hello world".toList
    ∧ sanitizeL (sanitizeL "hello world".toList)
      = sanitizeL "hello world".toList :=
  c9_sanitize_idem_no_brace "hello world".toList (by decide)

/-! ## DOCX extraction model (process_file docx branch, lines 91-171) -/

/-- One formatted run of a DOCX paragraph, with the three format flags
python-docx exposes and the run text. -/
structure DocxRun where
  bold : Bool
  italic : Bool
  underline : Bool
  text : String

/-- Run rendering (lines 102-106): only bold runs are wrapped, with
double asterisks on both sides; all other runs pass through unchanged. -/
def renderRun (r : DocxRun) : String :=
  if r.bold then "**" ++ r.text ++ "**" else r.text

/-- `para.text` of python-docx: the concatenation of the run texts. -/
def paraText (p : List DocxRun) : String :=
  String.join (p.map DocxRun.text)

/-- The rendered paragraph: marked run texts concatenated in run order. -/
def renderPara (p : List DocxRun) : String :=
  String.join (p.map renderRun)

/-- A DOCX table row, as the list of its cell texts. -/
structure TableRow where
  cells : List String

/-- A DOCX table, as the list of its rows. -/
structure Table where
  rows : List TableRow

/-- The cells of the first row (empty when the table has no rows). -/
def firstRowCells (t : Table) : List String :=
  match t.rows with
  | [] => []
  | r :: _ => r.cells

/-- `header_row` (line 121): the stripped first-row cell texts. -/
def headerStrs (t : Table) : List String :=
  (firstRowCells t).map pyStripS

/-- Whether some header cell contains one of the question-marker tokens
(line 122, first disjunct). -/
def headerHasToken (t : Table) : Bool :=
  (headerStrs t).any fun c => containsTok c "问题" || containsTok c "题"

/-- Table classification (lines 118-122): the flag starts false and is
assigned only when the table has more than one row and a non-empty first
row; then it is token-presence or at-least-two header cells. -/
def isQuestionnaire (t : Table) : Bool :=
  if 1 < t.rows.length ∧ 0 < (firstRowCells t).length then
    headerHasToken t || decide (2 ≤ (headerStrs t).length)
  else false

/-- One questionnaire cell (lines 133-139): an empty stripped cell is
skipped; a cell with a non-empty header at its column index becomes a
`header: value` pair, otherwise the bare value. -/
def qCell (headers : List String) (idx : Nat) (cell : String) : Option String :=
  let ct := pyStripS cell
  if ct = "" then none
  else
    match headers.get? idx with
    | some h => if h = "" then some ct else some (h ++ ": " ++ ct)
    | none => some ct

/-- One questionnaire data row (lines 131-143): the rendered cells joined
by the separator; an all-empty row produces no line. -/
def qRow (headers : List String) (r : TableRow) : Option String :=
  let parts := r.cells.enum.filterMap fun ic => qCell headers ic.1 ic.2
  if parts = [] then none else some (String.intercalate " | " parts)

/-- All questionnaire lines: the rows after the header row. -/
def qRows (t : Table) : List String :=
  (t.rows.drop 1).filterMap (qRow (headerStrs t))

/-- Cell cleaning in the plain branch (line 152): newlines become spaces
and pipe characters become slashes, in that order. -/
def replaceChar (a b : Char) (s : String) : String :=
  String.mk (s.toList.map fun c => if c = a then b else c)

/-- One plain table row (lines 146-157): non-empty stripped cells are
cleaned and joined by the separator; an all-empty row produces no line. -/
def plainRow (r : TableRow) : Option String :=
  let parts := r.cells.filterMap fun c =>
    let ct := pyStripS c
    if ct = "" then none else some (replaceChar '|' '/' (replaceChar '\n' ' ' ct))
  if parts = [] then none else some (String.intercalate " | " parts)

/-- All plain lines: every row of the table, the first included. -/
def plainRows (t : Table) : List String :=
  t.rows.filterMap plainRow

/-- The table heading line (line 115). -/
def tableMark (idx : Nat) : String :=
  "\n## 表格 " ++ toString (idx + 1)

/-- Rendering of one table (lines 110-157): an empty table contributes
nothing; otherwise the heading line followed by the questionnaire or the
plain rendering according to the classification. -/
def renderTable (idx : Nat) (t : Table) : List String :=
  if t.rows.length = 0 then []
  else tableMark idx :: (if isQuestionnaire t then qRows t else plainRows t)

/-- All table parts, with the enumeration index counting skipped empty
tables as well. -/
def tableParts : Nat → List Table → List String
  | _, [] => []
  | idx, t :: rest => renderTable idx t ++ tableParts (idx + 1) rest

/-- The paragraph parts (lines 98-107): paragraphs whose text strips to
empty are skipped, the others are rendered with run markup. -/
def paraParts (paras : List (List DocxRun)) : List String :=
  (paras.filter fun p => pyStripS (paraText p) != "").map renderPara

/-- A DOCX document as the extractor sees it. -/
structure DocxDoc where
  paragraphs : List (List DocxRun)
  tables : List Table

/-- The docx branch content before post-processing (line 160):
`"\n\n".join(content_parts)`. -/
def docxContent (d : DocxDoc) : String :=
  String.intercalate "\n\n" (paraParts d.paragraphs ++ tableParts 0 d.tables)

/-- A fallback table row (lines 189-193): stripped non-empty cells joined
by the separator, with no cleaning; empty join is skipped. -/
def fbRow (r : TableRow) : Option String :=
  let rt := String.intercalate " | "
    (r.cells.filterMap fun c =>
      let ct := pyStripS c
      if ct = "" then none else some ct)
  if rt = "" then none else some rt

/-- The fallback extraction (lines 179-197): raw paragraph texts with no
formatting markers, then every table row in order. -/
def fallbackContent (d : DocxDoc) : String :=
  String.intercalate "\n\n"
    ((d.paragraphs.filter fun p => pyStripS (paraText p) != "").map paraText
      ++ (d.tables.map fun t => t.rows.filterMap fbRow).flatten)

/-! ## C4: table classification and rendering -/

/-- A synthetic single-row table with two cells. -/
def tOneRow : Table := { rows := [{ cells := ["q1", "a1"] }] }

/-- The classification condition asserted by the claim: at least two
first-row cells, or a header cell containing a marker token. -/
def c4ClaimCond (t : Table) : Bool :=
  headerHasToken t || decide (2 ≤ (firstRowCells t).length)

/-- Formalisation of the C4 classification claim. -/
def c4Claim : Prop := ∀ t : Table, isQuestionnaire t = c4ClaimCond t

/-- C4 counterexample: a single-row two-cell table satisfies the claimed
condition but the code classifies it as plain, because the code also
requires more than one row. -/
theorem c4_counterexample : ¬ c4Claim :=
  fun h => absurd (h tOneRow) (by decide)

/-- A synthetic two-column table with a data row. -/
def twoColTable : Table :=
  { rows := [{ cells := ["h1", "h2"] }, { cells := ["a1", "b1"] }] }

/-- A synthetic one-column table without the marker token. -/
def oneColTable : Table :=
  { rows := [{ cells := ["name"] }, { cells := ["v1"] }] }

/-- C4 amended: a table is classified questionnaire if and only if it has
more than one row AND (its first row has at least two cells or a header
cell contains a marker token); a questionnaire table is rendered as
`header: value` pairs per subsequent row and a plain table as rows of
cell values joined by the separator, as the two synthetic tables show:
the two-column table (with a data row) is questionnaire, the one-column
table is plain. -/
theorem c4_classification (t : Table) (idx : Nat) :
    isQuestionnaire t
      = (decide (1 < t.rows.length)
          && (headerHasToken t || decide (2 ≤ (firstRowCells t).length)))
    ∧ renderTable idx twoColTable = [tableMark idx, "h1: a1 | h2: b1"]
    ∧ renderTable idx oneColTable = [tableMark idx, "name", "v1"]
    ∧ isQuestionnaire twoColTable = true
    ∧ isQuestionnaire oneColTable = false := by
  refine ⟨?_, rfl, rfl, by decide, by decide⟩
  by_cases h1 : 1 < t.rows.length
  · by_cases h0 : 0 < (firstRowCells t).length
    · rw [isQuestionnaire, if_pos ⟨h1, h0⟩]
      simp [headerStrs, h1]
    · have hcells : firstRowCells t = [] :=
        List.length_eq_zero.mp (by omega)
      rw [isQuestionnaire, if_neg (fun hco => h0 hco.2)]
      simp [headerHasToken, headerStrs, hcells]
  · rw [isQuestionnaire, if_neg (fun hco => h1 hco.1)]
    simp [h1]

/-! ## C8: run markup in DOCX paragraphs -/

/-- Formalisation of the C8 claim: there are non-empty bold, italic and
underline markers such that each kind of run is wrapped with its marker. -/
def c8Claim : Prop :=
  ∃ bm im um : List Char, bm ≠ [] ∧ im ≠ [] ∧ um ≠ [] ∧
    (∀ t : String, (renderRun ⟨true, false, false, t⟩).toList
        = bm ++ t.toList ++ bm)
    ∧ (∀ t : String, (renderRun ⟨false, true, false, t⟩).toList
        = im ++ t.toList ++ im)
    ∧ (∀ t : String, (renderRun ⟨false, false, true, t⟩).toList
        = um ++ t.toList ++ um)

/-- C8 counterexample: no non-empty italic marker can exist, because the
code renders an italic-only run of text "x" as the bare single character
"x" — italic (and underline) runs receive no markup at all. -/
theorem c8_counterexample : ¬ c8Claim := by
  rintro ⟨bm, im, um, hbm, him, hum, hb, hi, hu⟩
  have h := hi "x"
  have hx : (renderRun ⟨false, true, false, "x"⟩).toList = ['x'] := rfl
  have hx2 : ("x" : String).toList = ['x'] := rfl
  rw [hx, hx2] at h
  have hlen := congrArg List.length h
  simp only [List.length_append, List.length_cons, List.length_nil] at hlen
  have hz : im.length = 0 := by omega
  exact him (List.length_eq_zero.mp hz)

/-- C8 amended: only bold runs are wrapped, with double asterisks on both
sides; italic and underlined runs pass through with no marker; the
(marked) run texts are concatenated in run order. -/
theorem c8_run_markup (runs : List DocxRun) (i u : Bool) (t : String) :
    renderPara runs
      = String.join (runs.map fun r =>
          if r.bold then "**" ++ r.text ++ "**" else r.text)
    ∧ renderRun ⟨true, i, u, t⟩ = "**" ++ t ++ "**"
    ∧ renderRun ⟨false, i, u, t⟩ = t :=
  ⟨rfl, rfl, rfl⟩

/-! ## C2: process_file (lines 84-277)

Optional-format support flags and every fallible runtime operation of a
single file are part of the environment; a Python exception raised by an
operation is an `Except.error` carrying `str(e)`. -/

/-- The optional-dependency flags (PDF_SUPPORT, DOCX_SUPPORT,
IMAGE_SUPPORT). -/
structure Caps where
  pdf : Bool
  docx : Bool
  image : Bool

/-- Outcome of the initial text read of the else branch: success, a
UnicodeDecodeError (which triggers the binary fallback), or another
exception. -/
inductive TextReadResult
  | ok (s : String)
  | unicodeError
  | err (e : String)

/-- The per-file environment: existence, size, and the outcome of each
operation the extractor may attempt on this path. -/
structure FileWorld where
  basename : String
  exists_ : Bool
  size : Nat
  docxParse : Except String DocxDoc
  docxParse2 : Except String DocxDoc
  docRead : Except String String
  pdfParse : Except String (List String)
  imageOpen : Except String (Nat × Nat × String)
  textRead : TextReadResult
  binRead : Except String String

/-- `process_file` (lines 84-277): dispatch on the declared extension
with the branch order of the source, each failure converted to the
corresponding message string. -/
def process_file (caps : Caps) (w : FileWorld) (ft : String) : String :=
  if w.exists_ = false ∨ w.size = 0 then
    "警告: 文件 " ++ w.basename ++ " 为空或不存在"
  else if ft = "docx" ∧ caps.docx = true then
    match w.docxParse with
    | Except.ok doc => sanitizeStr (docxContent doc)
    | Except.error _ =>
      match w.docxParse2 with
      | Except.ok doc => fallbackContent doc
      | Except.error e2 => "备选方法也失败: " ++ e2
  else if ft = "doc" then
    match w.docRead with
    | Except.ok raw =>
        "注意：.doc格式不完全支持，建议转换为.docx格式。尝试读取内容如下：\n" ++ raw
    | Except.error e => "读取DOC文件时出错: " ++ e
  else if ft = "pdf" ∧ caps.pdf = true then
    match w.pdfParse with
    | Except.ok pages => String.join (pages.map fun p => p ++ "\n")
    | Except.error e => "读取PDF文件时出错: " ++ e
  else if (ft = "jpg" ∨ ft = "jpeg" ∨ ft = "png") ∧ caps.image = true then
    match w.imageOpen with
    | Except.ok dims =>
        "[图像文件，尺寸: " ++ toString dims.1 ++ "x" ++ toString dims.2.1
          ++ "，类型: " ++ dims.2.2 ++ "。请在分析时考虑此图像可能包含的视觉内容。]"
    | Except.error e => "处理图像文件时出错: " ++ e
  else if (ft = "jpg" ∨ ft = "jpeg" ∨ ft = "png") ∧ caps.image = false then
    "[图像文件: " ++ w.basename ++ "。请在分析时考虑此图像可能包含的视觉内容。]"
  else
    match w.textRead with
    | TextReadResult.ok c => c
    | TextReadResult.unicodeError =>
      match w.binRead with
      | Except.ok c => c
      | Except.error e => "以二进制模式读取文件时出错: " ++ e
    | TextReadResult.err e => "读取文本文件时出错: " ++ e

/-- The per-batch loop (lines 515-536) applied `process_file` to every
saved file independently, in order. -/
def processAll (caps : Caps) (files : List (FileWorld × String)) : List String :=
  files.map fun fw => process_file caps fw.1 fw.2

/-- The guard of the else branch: no earlier branch applies. -/
def textBranch (caps : Caps) (ft : String) : Prop :=
  ¬ (ft = "docx" ∧ caps.docx = true) ∧ ft ≠ "doc"
    ∧ ¬ (ft = "pdf" ∧ caps.pdf = true)
    ∧ ¬ (ft = "jpg" ∨ ft = "jpeg" ∨ ft = "png")

theorem append_ne_empty_of_left_ne (p s : String) (h : 0 < p.length) :
    p ++ s ≠ "" := by
  intro hc
  have hlen := congrArg String.length hc
  rw [String.length_append] at hlen
  have h0 : ("" : String).length = 0 := rfl
  rw [h0] at hlen
  omega

theorem append3_ne_empty (a b c : String) (ha : 0 < a.length) :
    a ++ b ++ c ≠ "" := by
  apply append_ne_empty_of_left_ne
  rw [String.length_append]
  omega

/-- C2: the extractor is a total function (no exception escapes: every
fallible operation outcome is consumed); a missing or zero-byte file
yields the explicit warning string; every internal failure on every
branch yields the corresponding non-empty message string in place of the
content (for DOCX, a first parse failure still falls back to the simple
extraction when that succeeds); and the batch loop maps each file
independently, so the output for a file depends only on that file and
every file keeps its slot regardless of the others. -/
theorem c2_extract_never_raises (caps : Caps) (w : FileWorld) (ft : String) :
    ((w.exists_ = false ∨ w.size = 0) →
      process_file caps w ft = "警告: 文件 " ++ w.basename ++ " 为空或不存在"
      ∧ process_file caps w ft ≠ "")
    ∧ (∀ e e2, w.exists_ = true → w.size ≠ 0 → ft = "docx" → caps.docx = true →
        w.docxParse = Except.error e → w.docxParse2 = Except.error e2 →
        process_file caps w ft = "备选方法也失败: " ++ e2
        ∧ process_file caps w ft ≠ "")
    ∧ (∀ e d2, w.exists_ = true → w.size ≠ 0 → ft = "docx" → caps.docx = true →
        w.docxParse = Except.error e → w.docxParse2 = Except.ok d2 →
        process_file caps w ft = fallbackContent d2)
    ∧ (∀ e, w.exists_ = true → w.size ≠ 0 → ft = "doc" →
        w.docRead = Except.error e →
        process_file caps w ft = "读取DOC文件时出错: " ++ e
        ∧ process_file caps w ft ≠ "")
    ∧ (∀ e, w.exists_ = true → w.size ≠ 0 → ft = "pdf" → caps.pdf = true →
        w.pdfParse = Except.error e →
        process_file caps w ft = "读取PDF文件时出错: " ++ e
        ∧ process_file caps w ft ≠ "")
    ∧ (∀ e, w.exists_ = true → w.size ≠ 0 →
        (ft = "jpg" ∨ ft = "jpeg" ∨ ft = "png") → caps.image = true →
        w.imageOpen = Except.error e →
        process_file caps w ft = "处理图像文件时出错: " ++ e
        ∧ process_file caps w ft ≠ "")
    ∧ (∀ e, w.exists_ = true → w.size ≠ 0 → textBranch caps ft →
        w.textRead = TextReadResult.err e →
        process_file caps w ft = "读取文本文件时出错: " ++ e
        ∧ process_file caps w ft ≠ "")
    ∧ (∀ e, w.exists_ = true → w.size ≠ 0 → textBranch caps ft →
        w.textRead = TextReadResult.unicodeError → w.binRead = Except.error e →
        process_file caps w ft = "以二进制模式读取文件时出错: " ++ e
        ∧ process_file caps w ft ≠ "")
    ∧ (∀ (files files' : List (FileWorld × String)) (i : Nat),
        (processAll caps files).length = files.length
        ∧ (files[i]? = files'[i]? →
            (processAll caps files)[i]? = (processAll caps files')[i]?)) := by
  refine ⟨?_, ?_, ?_, ?_, ?_, ?_, ?_, ?_, ?_⟩
  · intro h
    have heq : process_file caps w ft
        = "警告: 文件 " ++ w.basename ++ " 为空或不存在" := by
      rcases h with h | h
      · simp [process_file, h]
      · simp [process_file, h]
    exact ⟨heq, heq ▸ append3_ne_empty _ _ _ (by decide)⟩
  · intro e e2 hex hsz hft hcaps hp1 hp2
    subst hft
    have heq : process_file caps w "docx" = "备选方法也失败: " ++ e2 := by
      simp [process_file, hex, hsz, hcaps, hp1, hp2]
    exact ⟨heq, heq ▸ append_ne_empty_of_left_ne _ _ (by decide)⟩
  · intro e d2 hex hsz hft hcaps hp1 hp2
    subst hft
    simp [process_file, hex, hsz, hcaps, hp1, hp2]
  · intro e hex hsz hft hrd
    subst hft
    have heq : process_file caps w "doc" = "读取DOC文件时出错: " ++ e := by
      simp [process_file, hex, hsz, hrd]
    exact ⟨heq, heq ▸ append_ne_empty_of_left_ne _ _ (by decide)⟩
  · intro e hex hsz hft hcaps hpdf
    subst hft
    have heq : process_file caps w "pdf" = "读取PDF文件时出错: " ++ e := by
      simp [process_file, hex, hsz, hcaps, hpdf]
    exact ⟨heq, heq ▸ append_ne_empty_of_left_ne _ _ (by decide)⟩
  · intro e hex hsz hft hcaps himg
    have heq : process_file caps w ft = "处理图像文件时出错: " ++ e := by
      rcases hft with hft | hft | hft <;> subst hft <;>
        simp [process_file, hex, hsz, hcaps, himg]
    exact ⟨heq, heq ▸ append_ne_empty_of_left_ne _ _ (by decide)⟩
  · intro e hex hsz htb htr
    obtain ⟨h1, h2, h3, h4⟩ := htb
    have heq : process_file caps w ft = "读取文本文件时出错: " ++ e := by
      simp [process_file, hex, hsz, h1, h2, h3, h4, htr]
    exact ⟨heq, heq ▸ append_ne_empty_of_left_ne _ _ (by decide)⟩
  · intro e hex hsz htb htr hbin
    obtain ⟨h1, h2, h3, h4⟩ := htb
    have heq : process_file caps w ft = "以二进制模式读取文件时出错: " ++ e := by
      simp [process_file, hex, hsz, h1, h2, h3, h4, htr, hbin]
    exact ⟨heq, heq ▸ append_ne_empty_of_left_ne _ _ (by decide)⟩
  · intro files files' i
    refine ⟨by simp [processAll], ?_⟩
    intro h
    simp [processAll, List.getElem?_map, h]

/-- All optional formats available. -/
def capsAll : Caps := { pdf := true, docx := true, image := true }

/-- A missing file environment. -/
def missingFile : FileWorld :=
  { basename := "f.txt", exists_ := false, size := 0
    docxParse := Except.error "x", docxParse2 := Except.error "x"
    docRead := Except.error "x", pdfParse := Except.error "x"
    imageOpen := Except.error "x", textRead := TextReadResult.err "x"
    binRead := Except.error "x" }

/-- A DOCX file on which both the main and the fallback parse raise. -/
def badDocxFile : FileWorld :=
  { basename := "r.docx", exists_ := true, size := 5
    docxParse := Except.error "parse failure"
    docxParse2 := Except.error "second failure"
    docRead := Except.error "x", pdfParse := Except.error "x"
    imageOpen := Except.error "x", textRead := TextReadResult.err "x"
    binRead := Except.error "x" }

/-- C2 witness: the warning for a missing file and the double-failure
DOCX message, at concrete inputs. -/
theorem c2_extract_never_raises_witness :
    process_file capsAll missingFile "txt"
      = "警告: 文件 " ++ "f.txt" ++ " 为空或不存在"
    ∧ process_file capsAll badDocxFile "docx"
      = "备选方法也失败: " ++ "second failure" :=
  ⟨((c2_extract_never_raises capsAll missingFile "txt").1 (Or.inl rfl)).1,
   ((c2_extract_never_raises capsAll badDocxFile "docx").2.1 "parse failure"
      "second failure" rfl (by decide) rfl rfl rfl rfl).1⟩

/-! ## C10: sanitized file names in the save loop (lines 501-507, 526-536)

The Python word-character class of the regular expression is abstracted
as a predicate; the theorems assume only what holds of it in Python:
the underscore is a word character and the path separator is not. -/

/-- One character of `re.sub` with the class of word characters, hyphen
and dot: a character outside the class becomes an underscore. -/
def subChar (isWord : Char → Bool) (c : Char) : Char :=
  if isWord c || c = '-' || c = '.' then c else '_'

/-- `safe_filename = re.sub(..., "_", file.name)` (line 503): the
character class is a single-character class, so the substitution is a
character-wise map. -/
def safeFilename (isWord : Char → Bool) (name : List Char) : List Char :=
  name.map (subChar isWord)

/-- `os.path.join(temp_dir, safe_filename)` (line 504). -/
def joinPath (dir name : List Char) : List Char :=
  dir ++ '/' :: name

/-- `os.path.basename` (line 527): the segment after the last separator. -/
def basenameL (p : List Char) : List Char :=
  (p.reverse.takeWhile (fun c => c != '/')).reverse

/-- The ASCII core of the Python word-character class, used to
instantiate the abstract predicate in the witness. -/
def isWordAscii (c : Char) : Bool :=
  c.isAlphanum || c = '_'

theorem takeWhile_append_stop (p : Char → Bool) (x : Char) (hx : p x = false) :
    ∀ (l r : List Char), (∀ c ∈ l, p c = true) →
      (l ++ x :: r).takeWhile p = l := by
  intro l
  induction l with
  | nil =>
    intro r _
    simp [List.takeWhile, hx]
  | cons c rest ih =>
    intro r hall
    have hc : p c = true := hall c (List.mem_cons_self c rest)
    simp [List.takeWhile, hc]
    exact ih r fun d hd => hall d (List.mem_cons_of_mem _ hd)

theorem safeFilename_no_sep (isWord : Char → Bool) (hsep : isWord '/' = false)
    (name : List Char) : ∀ c ∈ safeFilename isWord name, (c != '/') = true := by
  intro c hc
  rcases List.mem_map.mp hc with ⟨a, _, ha⟩
  by_cases hw : isWord a || a = '-' || a = '.'
  · have : c = a := by rw [← ha]; simp [subChar, hw]
    subst this
    rcases Bool.or_eq_true_iff.mp hw with hw' | hdot
    · rcases Bool.or_eq_true_iff.mp hw' with hword | hhy
      · have hne : c ≠ '/' := fun hcc => by
          rw [hcc] at hword
          rw [hword] at hsep
          cases hsep
        simp [hne]
      · simp [of_decide_eq_true hhy]
    · simp [of_decide_eq_true hdot]
  · have : c = '_' := by rw [← ha]; simp [subChar, hw]
    subst this
    decide

theorem safeFilename_changes (isWord : Char → Bool) (hund : isWord '_' = true) :
    ∀ (name : List Char), (∃ c ∈ name, isWord c = false ∧ c ≠ '-' ∧ c ≠ '.') →
      safeFilename isWord name ≠ name := by
  intro name
  induction name with
  | nil => rintro ⟨c, hc, _⟩; cases hc
  | cons a rest ih =>
    rintro ⟨c, hc, hw, hh, hd⟩ heq
    rcases List.mem_cons.mp hc with rfl | hmem
    · have hsub : subChar isWord c = '_' := by
        simp [subChar, hw, hh, hd]
      have hhead : subChar isWord c = c := by
        have := congrArg (fun l => l.headI) heq
        simpa [safeFilename] using this
      rw [hsub] at hhead
      rw [← hhead] at hw
      rw [hund] at hw
      cases hw
    · have htail : safeFilename isWord rest = rest := by
        have := congrArg List.tail heq
        simpa [safeFilename] using this
      exact ih ⟨c, hmem, hw, hh, hd⟩ htail

/-- C10: the name used throughout extraction and embedded in the
delimiter is the basename of the saved path, which is the sanitized
name, not the original upload name: every character outside the
word/hyphen/dot class maps to an underscore, and whenever the upload
name contains such a character the delimiter name differs from it. -/
theorem c10_sanitized_delimiter_name (isWord : Char → Bool)
    (dir name : List Char) (i : Nat)
    (hund : isWord '_' = true) (hsep : isWord '/' = false) :
    basenameL (joinPath dir (safeFilename isWord name)) = safeFilename isWord name
    ∧ (safeFilename isWord name)[i]? = (name[i]?).map (subChar isWord)
    ∧ fileDelim (String.mk (basenameL (joinPath dir (safeFilename isWord name))))
        = fileDelim (String.mk (safeFilename isWord name))
    ∧ ((∃ c ∈ name, isWord c = false ∧ c ≠ '-' ∧ c ≠ '.') →
        safeFilename isWord name ≠ name) := by
  have hbase : basenameL (joinPath dir (safeFilename isWord name))
      = safeFilename isWord name := by
    rw [joinPath, basenameL, List.reverse_append, List.reverse_cons,
      List.append_assoc]
    rw [show (['/'] ++ dir.reverse : List Char) = '/' :: dir.reverse from rfl]
    rw [takeWhile_append_stop _ '/' (by decide) _ _
      (fun c hc => safeFilename_no_sep isWord hsep name c
        (List.mem_reverse.mp hc))]
    exact List.reverse_reverse _
  refine ⟨hbase, ?_, by rw [hbase], safeFilename_changes isWord hund name⟩
  simp [safeFilename]

/-- C10 witness: with the ASCII word-character class, the upload name
"a b.txt" (containing a space) is saved and delimited as "a_b.txt". -/
theorem c10_sanitized_delimiter_name_witness :
    basenameL (joinPath "/tmp/u".toList (safeFilename isWordAscii "a b.txt".toList))
      = safeFilename isWordAscii "a b.txt".toList
    ∧ safeFilename isWordAscii "a b.txt".toList ≠ "a b.txt".toList :=
  ⟨(c10_sanitized_delimiter_name isWordAscii "/tmp/u".toList "a b.txt".toList 0
      (by decide) (by decide)).1,
   (c10_sanitized_delimiter_name isWordAscii "/tmp/u".toList "a b.txt".toList 0
      (by decide) (by decide)).2.2.2
     ⟨' ', by decide, by decide, by decide, by decide⟩⟩
